import Mathlib

/-!
Verification of the stealth-scan-trader signal bot against its design
specification.  The repository ships the React frontend (API client,
market-data hooks, WebSocket hook, live-position component); the Python
backend (scorer, cooldown manager, orchestrator, paper broker,
performance calculator, event hub) is referenced by the frontend and the
design documents but its sources are not in the tree, so those parts are
modelled directly from the specification text and marked as such.
Numeric values are embedded as rationals.
-/

namespace StealthScan

/-- Signal quality tier, ordered BRONZE < SILVER < GOLD < PLATINUM. -/
inductive Tier where
  | BRONZE
  | SILVER
  | GOLD
  | PLATINUM
deriving DecidableEq, Repr

/-- Numeric rank of a tier outcome; `none` (no signal emitted) ranks lowest. -/
def tierRank : Option Tier → ℕ
  | none => 0
  | some Tier.BRONZE => 1
  | some Tier.SILVER => 2
  | some Tier.GOLD => 3
  | some Tier.PLATINUM => 4

/-- Modelled from the spec: the ConfidenceScorer/Gatekeeper tier mapping
(backend `ConfidenceScorer` is not in the tree).  Default thresholds:
confidence ≥ 90 and Gatekeeper pass → PLATINUM; ≥ 75 → GOLD; ≥ 60 →
SILVER; ≥ 45 → BRONZE; below → no Signal.  A high-confidence symbol
failing the gate is demoted to GOLD, not discarded. -/
def tierOf (confidence : ℚ) (gatePass : Bool) : Option Tier :=
  if 90 ≤ confidence then
    if gatePass then some Tier.PLATINUM else some Tier.GOLD
  else if 75 ≤ confidence then some Tier.GOLD
  else if 60 ≤ confidence then some Tier.SILVER
  else if 45 ≤ confidence then some Tier.BRONZE
  else none

example : tierOf 95 true = some Tier.PLATINUM := by decide
example : tierOf 95 false = some Tier.GOLD := by decide
example : tierOf 80 false = some Tier.GOLD := by decide
example : tierOf 62 true = some Tier.SILVER := by decide
example : tierOf 45 true = some Tier.BRONZE := by decide
example : tierOf 44 true = none := by decide

/-- Signal lifecycle status (spec data model §3). -/
inductive SignalStatus where
  | ACTIVE
  | EXECUTED
  | EXPIRED
deriving DecidableEq, Repr

/-- A persisted signal, reduced to the fields the cooldown invariant is
about. -/
structure StoredSignal where
  symbol : String
  confidence : ℚ
  status : SignalStatus
deriving DecidableEq, Repr

/-- CooldownEntry: symbol → (last_signal_at, ttl), together with the
confidence of the signal that set it, which the override-delta policy
compares against. -/
structure CooldownEntry where
  last_signal_at : ℕ
  ttl : ℕ
  confidence : ℚ
deriving DecidableEq, Repr

/-- In-memory state seen by the cooldown gate: the cooldown table and the
persisted signals. -/
structure CooldownState where
  entries : List (String × CooldownEntry)
  signals : List StoredSignal
deriving DecidableEq, Repr

/-- Outcome of the gate: both constructors are normal results, there is no
error channel. -/
inductive GateOutcome where
  | stored
  | cooldownRejected
deriving DecidableEq, Repr

/-- Look up the cooldown entry recorded for a symbol. -/
def lookupEntry (es : List (String × CooldownEntry)) (sym : String) :
    Option CooldownEntry :=
  (es.find? (fun p => p.1 == sym)).map Prod.snd

/-- Record (or replace) the cooldown entry for a symbol. -/
def setEntry (es : List (String × CooldownEntry)) (sym : String)
    (e : CooldownEntry) : List (String × CooldownEntry) :=
  (sym, e) :: es.filter (fun p => ¬ p.1 == sym)

/-- Persist a qualifying signal as ACTIVE and record now() as
last_signal_at with the configured ttl. -/
def storeSignal (st : CooldownState) (sym : String) (now ttl : ℕ)
    (conf : ℚ) : CooldownState :=
  { entries := setEntry st.entries sym ⟨now, ttl, conf⟩,
    signals := ⟨sym, conf, SignalStatus.ACTIVE⟩ :: st.signals }

/-- Modelled from the spec: the CooldownManager gate (backend
`CooldownManager` is not in the tree).  On allow, records now() as
last_signal_at with the configured ttl; a second signal for the same
symbol before ttl expiry is rejected unless its confidence exceeds the
previous one by the configurable override delta.  A rejection is a
normal gating outcome, not an error. -/
def processSignal (st : CooldownState) (sym : String) (now ttl : ℕ)
    (conf delta : ℚ) : CooldownState × GateOutcome :=
  match lookupEntry st.entries sym with
  | some e =>
    if now < e.last_signal_at + e.ttl then
      if e.confidence + delta < conf then
        (storeSignal st sym now ttl conf, GateOutcome.stored)
      else (st, GateOutcome.cooldownRejected)
    else (storeSignal st sym now ttl conf, GateOutcome.stored)
  | none => (storeSignal st sym now ttl conf, GateOutcome.stored)

/-- Number of ACTIVE stored signals for a symbol. -/
def activeCount (st : CooldownState) (sym : String) : ℕ :=
  (st.signals.filter
    (fun s => s.symbol == sym && s.status == SignalStatus.ACTIVE)).length

/-- Frontend `Position` record of `src/components/LivePositions.tsx`. -/
structure Position where
  trade_id : String
  symbol : String
  quantity : ℚ
  entry_price : ℚ
  current_price : ℚ
  unrealized_pnl : ℚ
  unrealized_pnl_percent : ℚ
  stop_loss : Option ℚ
  take_profit : Option ℚ
deriving DecidableEq, Repr

/-- Embeds the body of the `onMarketUpdate` mapper in
`src/components/LivePositions.tsx` (lines 40–54): `marketData` gives the
update's price per symbol (`marketData[pos.symbol].price`); a position
whose symbol is absent from the update is returned as-is. -/
def updatePosition (marketData : String → Option ℚ) (pos : Position) :
    Position :=
  match marketData pos.symbol with
  | some currentPrice =>
    let unrealized_pnl := (currentPrice - pos.entry_price) * pos.quantity
    let unrealized_pnl_percent :=
      unrealized_pnl / (pos.entry_price * pos.quantity) * 100
    { pos with
        current_price := currentPrice,
        unrealized_pnl := unrealized_pnl,
        unrealized_pnl_percent := unrealized_pnl_percent }
  | none => pos

/-- The `onMarketUpdate` handler: `setPositions(prev => prev.map(...))`. -/
def onMarketUpdate (marketData : String → Option ℚ)
    (prev : List Position) : List Position :=
  prev.map (updatePosition marketData)

/-- Paper-broker position lifecycle status (spec data model §3). -/
inductive PositionStatus where
  | OPEN
  | CLOSED
deriving DecidableEq, Repr

/-- Backend-side position as monitored by the PositionManager. -/
structure BrokerPosition where
  symbol : String
  quantity : ℚ
  entry_price : ℚ
  current_price : ℚ
  stop_loss : Option ℚ
  take_profit : Option ℚ
  trailing_stop : Option ℚ
  unrealized_pnl : ℚ
  realized_pnl : Option ℚ
  status : PositionStatus
deriving DecidableEq, Repr

/-- A "trade" close event broadcast when a rule fires. -/
inductive BrokerEvent where
  | tradeClose (symbol : String) (price : ℚ) (realized : ℚ)
deriving DecidableEq, Repr

/-- Modelled from the spec: PositionManager monitoring of one OPEN
position on a market-update tick (backend `PositionManager` is not in
the tree).  Recompute unrealized_pnl from the new price, ratchet the
trailing stop toward the price (never loosening), then evaluate
stop_loss/take_profit; a breached rule closes the position at the
triggering price, sets realized_pnl, marks it CLOSED and emits one
"trade" close event.  A CLOSED position never transitions again. -/
def monitorTick (pos : BrokerPosition) (price : ℚ) :
    BrokerPosition × List BrokerEvent :=
  match pos.status with
  | PositionStatus.CLOSED => (pos, [])
  | PositionStatus.OPEN =>
    let p₁ : BrokerPosition :=
      { pos with
          current_price := price,
          unrealized_pnl := (price - pos.entry_price) * pos.quantity }
    let p₂ : BrokerPosition :=
      match p₁.trailing_stop with
      | some dist =>
        let candidate := price - dist
        match p₁.stop_loss with
        | some sl =>
          if sl < candidate then { p₁ with stop_loss := some candidate }
          else p₁
        | none => { p₁ with stop_loss := some candidate }
      | none => p₁
    let stopHit : Bool :=
      match p₂.stop_loss with
      | some sl => decide (price ≤ sl)
      | none => false
    let targetHit : Bool :=
      match p₂.take_profit with
      | some tp => decide (tp ≤ price)
      | none => false
    if stopHit || targetHit then
      let realized := (price - p₂.entry_price) * p₂.quantity
      ({ p₂ with
           status := PositionStatus.CLOSED,
           realized_pnl := some realized },
       [BrokerEvent.tradeClose p₂.symbol price realized])
    else (p₂, [])

/-- BotStatus as served to the frontend (`src/hooks/useWebSocket.ts`,
`BotStatus` interface) with last_action_at as an abstract timestamp. -/
structure BotStatus where
  auto_trading : Bool
  scanning : Bool
  scan_count : ℕ
  trade_count : ℕ
  last_action_at : ℕ
deriving DecidableEq, Repr

/-- Whole-bot state the control layer owns: the status record, the
in-memory cooldown table, the open positions, and whether the scheduled
scan loop is running. -/
structure BotState where
  status : BotStatus
  cooldowns : List (String × CooldownEntry)
  openPositions : List BrokerPosition
  loopActive : Bool
deriving DecidableEq, Repr

/-- Modelled from the spec: `Reset()` of the BotControlStateMachine
(backend control layer is not in the tree; `useResetBot` only posts to
it).  It stops the scheduled loop, clears cooldown entries and zeroes
scan_count/trade_count; it does not close or alter open positions. -/
def reset (s : BotState) : BotState :=
  { s with
      status :=
        { s.status with
            scanning := false,
            scan_count := 0,
            trade_count := 0 },
      cooldowns := [],
      loopActive := false }

/-- One field of the serialized RunScan response. -/
inductive ScanField where
  | nat (n : ℕ)
  | strList (l : List String)
deriving DecidableEq, Repr

/-- Accumulator of one scan pass. -/
structure ScanAcc where
  st : CooldownState
  stored : ℕ
  tops : List String
  errors : List String
deriving Repr

/-- Modelled from the spec: processing of one universe symbol inside a
scan — fetch the Quote (a failed fetch is recorded in the error list and
the symbol skipped), score, tier-map, cooldown-gate, and count/store an
accepted signal. -/
def scanSymbol (quote : String → Option ℚ) (confidence : String → ℚ)
    (gatePass : String → Bool) (now ttl : ℕ) (delta : ℚ)
    (acc : ScanAcc) (sym : String) : ScanAcc :=
  match quote sym with
  | none => { acc with errors := acc.errors ++ [sym] }
  | some _price =>
    match tierOf (confidence sym) (gatePass sym) with
    | none => acc
    | some _tier =>
      let res := processSignal acc.st sym now ttl (confidence sym) delta
      match res.2 with
      | GateOutcome.stored =>
        { acc with
            st := res.1,
            stored := acc.stored + 1,
            tops := acc.tops ++ [sym] }
      | GateOutcome.cooldownRejected => { acc with st := res.1 }

/-- Modelled from the spec: `RunScan(manual)` returns a record with the
fields total_scanned, signals_stored, top_opportunities and errors (the
backend orchestrator is not in the tree; `BotControls.tsx` and
`useScanOnce` are only its callers).  The response is serialized as an
ordered field list. -/
def runScan (manual : Bool) (univSyms : List String)
    (quote : String → Option ℚ) (confidence : String → ℚ)
    (gatePass : String → Bool) (st : CooldownState) (now ttl : ℕ)
    (delta : ℚ) : List (String × ScanField) :=
  let acc := univSyms.foldl
    (scanSymbol quote confidence gatePass now ttl delta)
    ⟨st, 0, [], []⟩
  let _ := manual
  [("total_scanned", ScanField.nat univSyms.length),
   ("signals_stored", ScanField.nat acc.stored),
   ("top_opportunities", ScanField.strList acc.tops),
   ("errors", ScanField.strList acc.errors)]

/-- A CLOSED trade as consumed by the PerformanceCalculator: realized
pnl, the day it closed on, and the tier of its originating Signal. -/
structure ClosedTrade where
  pnl : ℚ
  day : String
  tier : String
deriving DecidableEq, Repr

/-- Modelled from the spec: win_rate = wins / total, 0 if no trades
(backend `PerformanceCalculator` is not in the tree; the frontend
`PerformanceData` interface only consumes it). -/
def winRate (ts : List ClosedTrade) : ℚ :=
  if ts.length = 0 then 0
  else ((ts.filter (fun t => decide (0 < t.pnl))).length : ℚ) / ts.length

/-- Fold step of the daily pnl aggregation: add the trade's pnl to its
day's bucket, creating the bucket on first sight. -/
def addDaily (acc : List (String × ℚ)) (t : ClosedTrade) :
    List (String × ℚ) :=
  if acc.any (fun p => p.1 == t.day) then
    acc.map (fun p => if p.1 == t.day then (p.1, p.2 + t.pnl) else p)
  else acc ++ [(t.day, t.pnl)]

/-- Daily aggregated pnl of the closed trades, grouped by close day. -/
def dailyAgg (ts : List ClosedTrade) : List (String × ℚ) :=
  ts.foldl addDaily []

/-- Arithmetic mean of a list of rationals (0 on the empty list, since
division by zero is zero in ℚ). -/
def listMean (xs : List ℚ) : ℚ := xs.sum / xs.length

/-- Population variance of a list of rationals. -/
def listVariance (xs : List ℚ) : ℚ :=
  ((xs.map (fun x => (x - listMean xs) ^ 2)).sum) / xs.length

/-- Modelled from the spec: Sharpe = mean(daily aggregated pnl) /
stdev(daily aggregated pnl) × √252, defined as 0 when the stdev is 0
(equivalently, the variance is 0) or fewer than 2 days of data exist.
The numeric square-root routine of the host language is abstracted as
`sqrtFn`. -/
def sharpe (sqrtFn : ℚ → ℚ) (ts : List ClosedTrade) : ℚ :=
  let daily := (dailyAgg ts).map Prod.snd
  if daily.length < 2 then 0
  else if listVariance daily = 0 then 0
  else listMean daily / sqrtFn (listVariance daily) * sqrtFn 252

/-- WebSocket client control message, per `src/hooks/useWebSocket.ts`. -/
structure WsClientMessage where
  type : String
deriving DecidableEq, Repr

/-- The keep-alive message `JSON.stringify(... type ping ...)` of
`src/hooks/useWebSocket.ts` line 55. -/
def pingMessage : WsClientMessage := ⟨"ping"⟩

/-- The `setInterval` period of the keep-alive sender,
`src/hooks/useWebSocket.ts` line 57: 30000 ms. -/
def pingPeriodMs : ℕ := 30000

/-- Browser WebSocket readyState values. -/
inductive ReadyState where
  | CONNECTING
  | OPEN
  | CLOSING
  | CLOSED
deriving DecidableEq, Repr

/-- One firing of the keep-alive interval callback
(`src/hooks/useWebSocket.ts` lines 53–57): the ping is sent only while
the socket is OPEN. -/
def pingTick (rs : ReadyState) : Option WsClientMessage :=
  if rs = ReadyState.OPEN then some pingMessage else none

/-- Time (ms after the socket opened) of the k-th firing of the
keep-alive interval. -/
def pingTime (k : ℕ) : ℕ := (k + 1) * pingPeriodMs

/-- Modelled from the spec: the EventBroadcaster heartbeat period,
default 30 s (the backend hub is not in the tree). -/
def heartbeatSeconds : ℕ := 30

/-- Modelled from the spec: dead-peer threshold = 2 × heartbeat. -/
def deadPeerThresholdMs : ℕ := 2 * (heartbeatSeconds * 1000)

/-- A live subscriber of the event hub. -/
structure Subscriber where
  id : String
  lastSeenMs : ℕ
deriving DecidableEq, Repr

/-- Modelled from the spec: reaping of dead peers (backend hub is not in
the tree) — a subscriber silent for more than two heartbeat intervals is
dropped, and dropping it discards its queue, kept here alongside it. -/
def reapSubscribers (subs : List (Subscriber × List String)) (nowMs : ℕ) :
    List (Subscriber × List String) :=
  subs.filter (fun p => decide (nowMs ≤ p.1.lastSeenMs + deadPeerThresholdMs))

/-- Browser-visible state touched by the API client's response
interceptor: the stored auth_token in localStorage and the location. -/
structure ClientBrowserState where
  auth_token : Option String
  href : String
deriving DecidableEq, Repr

/-- An axios error as seen by the interceptor: `error.response?.status`
(absent for network errors without a response). -/
structure HttpFailure where
  respStatus : Option ℕ
deriving DecidableEq, Repr

/-- Result handed back to the caller's promise chain. -/
inductive InterceptOutcome where
  | resolve (status : ℕ)
  | reject (e : HttpFailure)
deriving DecidableEq, Repr

/-- Embeds the success arm of the response interceptor of
`src/api/client.ts` line 32: the response passes through untouched. -/
def onResponseSuccess (status : ℕ) (st : ClientBrowserState) :
    ClientBrowserState × InterceptOutcome :=
  (st, InterceptOutcome.resolve status)

/-- Embeds the failure arm of the response interceptor of
`src/api/client.ts` lines 33–40: a 401 removes auth_token from
localStorage and navigates to /login, then the promise is rejected with
the original error; any other error is rejected unchanged. -/
def onResponseFailure (e : HttpFailure) (st : ClientBrowserState) :
    ClientBrowserState × InterceptOutcome :=
  if e.respStatus = some 401 then
    ({ st with auth_token := none, href := "/login" },
      InterceptOutcome.reject e)
  else (st, InterceptOutcome.reject e)

/-- What a react-query queryFn does to its caller: produce a value, or
propagate a thrown error. -/
inductive QueryOutcome (α : Type) where
  | value (a : α)
  | thrown
deriving DecidableEq, Repr

/-- Quote map returned by the quotes endpoint, reduced to prices. -/
abbrev QuotesMap := List (String × ℚ)

/-- Market status payload of `src/hooks/useMarketData.ts`. -/
structure MarketStatus where
  status : String
  session : String
  timestamp : String
deriving DecidableEq, Repr

/-- Embeds the `useMarketQuotes` queryFn of `src/hooks/useMarketData.ts`
lines 34–45: an empty symbol list short-circuits to an empty record
without issuing the POST; a failed fetch is caught and mapped to an
empty record.  Returns the outcome and whether the request was issued. -/
def marketQuotesQueryFn (symbols : List String)
    (fetch : Except String QuotesMap) : QueryOutcome QuotesMap × Bool :=
  if symbols.isEmpty then (QueryOutcome.value [], false)
  else
    match fetch with
    | Except.ok m => (QueryOutcome.value m, true)
    | Except.error _ => (QueryOutcome.value [], true)

/-- Embeds the `useMarketStatus` queryFn of `src/hooks/useMarketData.ts`
lines 54–65: a failed fetch is caught and mapped to the fallback with
status CLOSED and session Unknown, stamped with the current time. -/
def marketStatusQueryFn (fetch : Except String MarketStatus)
    (now : String) : QueryOutcome MarketStatus :=
  match fetch with
  | Except.ok s => QueryOutcome.value s
  | Except.error _ => QueryOutcome.value ⟨"CLOSED", "Unknown", now⟩

end StealthScan

/-- C1: with default thresholds the tier mapping is monotonic
non-decreasing in confidence (for either fixed gate outcome); PLATINUM
is assigned only when the Gatekeeper passes, regardless of confidence;
and a high-confidence symbol (≥ 90) failing the gate is demoted to GOLD,
not discarded. -/
theorem C1_tier_monotone_gatekeeper (c₁ c₂ c : ℚ) (g : Bool)
    (hle : c₁ ≤ c₂) :
    StealthScan.tierRank (StealthScan.tierOf c₁ g) ≤
      StealthScan.tierRank (StealthScan.tierOf c₂ g) ∧
    (StealthScan.tierOf c g = some StealthScan.Tier.PLATINUM → g = true) ∧
    (90 ≤ c → StealthScan.tierOf c false = some StealthScan.Tier.GOLD) := by
  refine ⟨?_, ?_, ?_⟩
  · unfold StealthScan.tierOf StealthScan.tierRank
    split_ifs <;> simp_all <;> linarith
  · intro h
    unfold StealthScan.tierOf at h
    split_ifs at h <;> simp_all
  · intro h
    unfold StealthScan.tierOf
    split_ifs <;> simp_all

/-- C1 witness: concrete instance of the monotonicity/Gatekeeper theorem. -/
theorem C1_witness :
    StealthScan.tierRank (StealthScan.tierOf 50 false) ≤
      StealthScan.tierRank (StealthScan.tierOf 95 false) ∧
    (StealthScan.tierOf 95 false = some StealthScan.Tier.PLATINUM →
      false = true) ∧
    (90 ≤ (95 : ℚ) → StealthScan.tierOf 95 false = some StealthScan.Tier.GOLD) :=
  C1_tier_monotone_gatekeeper 50 95 95 false (by norm_num)

/-- C2: two qualifying signals for the same symbol within the cooldown
TTL, with the override delta not triggering, store at most one ACTIVE
signal (exactly one here): the first is stored, the second is rejected by
the gate as a normal `cooldownRejected` outcome, not an error. -/
theorem C2_cooldown_at_most_one_active
    (st : StealthScan.CooldownState) (sym : String) (t₁ t₂ ttl : ℕ)
    (c₁ c₂ delta : ℚ)
    (hfresh : StealthScan.lookupEntry st.entries sym = none)
    (hactive : StealthScan.activeCount st sym = 0)
    (hwithin : t₂ < t₁ + ttl)
    (hno : c₂ ≤ c₁ + delta) :
    (StealthScan.processSignal st sym t₁ ttl c₁ delta).2 =
      StealthScan.GateOutcome.stored ∧
    (StealthScan.processSignal
        (StealthScan.processSignal st sym t₁ ttl c₁ delta).1
        sym t₂ ttl c₂ delta).2 =
      StealthScan.GateOutcome.cooldownRejected ∧
    StealthScan.activeCount
      (StealthScan.processSignal
        (StealthScan.processSignal st sym t₁ ttl c₁ delta).1
        sym t₂ ttl c₂ delta).1 sym = 1 := by
  have hstep₁ :
      StealthScan.processSignal st sym t₁ ttl c₁ delta =
        (StealthScan.storeSignal st sym t₁ ttl c₁,
          StealthScan.GateOutcome.stored) := by
    unfold StealthScan.processSignal
    rw [hfresh]
  have hlook₂ :
      StealthScan.lookupEntry
        (StealthScan.storeSignal st sym t₁ ttl c₁).entries sym =
        some ⟨t₁, ttl, c₁⟩ := by
    simp [StealthScan.lookupEntry, StealthScan.storeSignal,
      StealthScan.setEntry, List.find?]
  have hstep₂ :
      StealthScan.processSignal
        (StealthScan.storeSignal st sym t₁ ttl c₁) sym t₂ ttl c₂ delta =
        (StealthScan.storeSignal st sym t₁ ttl c₁,
          StealthScan.GateOutcome.cooldownRejected) := by
    unfold StealthScan.processSignal
    rw [hlook₂]
    simp only [if_pos hwithin, if_neg (not_lt.mpr hno)]
  refine ⟨by rw [hstep₁], ?_, ?_⟩
  · rw [hstep₁]
    simp only [hstep₂]
  · rw [hstep₁]
    simp only [hstep₂]
    simp [StealthScan.activeCount, StealthScan.storeSignal] at hactive ⊢
    exact hactive

/-- C2 witness: a concrete fresh state, two scans of AAPL ten ticks
apart inside a 60-tick ttl, equal confidences. -/
theorem C2_witness :
    (StealthScan.processSignal ⟨[], []⟩ "AAPL" 0 60 80 5).2 =
      StealthScan.GateOutcome.stored ∧
    (StealthScan.processSignal
        (StealthScan.processSignal ⟨[], []⟩ "AAPL" 0 60 80 5).1
        "AAPL" 10 60 80 5).2 =
      StealthScan.GateOutcome.cooldownRejected ∧
    StealthScan.activeCount
      (StealthScan.processSignal
        (StealthScan.processSignal ⟨[], []⟩ "AAPL" 0 60 80 5).1
        "AAPL" 10 60 80 5).1 "AAPL" = 1 :=
  C2_cooldown_at_most_one_active ⟨[], []⟩ "AAPL" 0 10 60 80 80 5
    (by rfl) (by rfl) (by norm_num) (by norm_num)

/-- C3: after a market update carrying a price for a position's symbol,
the position's unrealized_pnl equals (current_price − entry_price) ×
quantity; a position without a price in the update is untouched, so
unrealized_pnl is only ever changed by this recomputation; the list
handler is exactly the pointwise map. -/
theorem C3_unrealized_pnl_recomputed (md : String → Option ℚ)
    (pos : StealthScan.Position) (prev : List StealthScan.Position) :
    (∀ p, md pos.symbol = some p →
      (StealthScan.updatePosition md pos).unrealized_pnl =
        (p - pos.entry_price) * pos.quantity ∧
      (StealthScan.updatePosition md pos).current_price = p ∧
      (StealthScan.updatePosition md pos).entry_price = pos.entry_price ∧
      (StealthScan.updatePosition md pos).quantity = pos.quantity ∧
      (StealthScan.updatePosition md pos).symbol = pos.symbol) ∧
    (md pos.symbol = none → StealthScan.updatePosition md pos = pos) ∧
    (StealthScan.updatePosition md pos = pos ∨
      (StealthScan.updatePosition md pos).unrealized_pnl =
        ((StealthScan.updatePosition md pos).current_price -
          (StealthScan.updatePosition md pos).entry_price) *
          (StealthScan.updatePosition md pos).quantity) ∧
    StealthScan.onMarketUpdate md prev =
      prev.map (StealthScan.updatePosition md) := by
  refine ⟨?_, ?_, ?_, rfl⟩
  · intro p hp
    simp [StealthScan.updatePosition, hp]
  · intro hp
    simp [StealthScan.updatePosition, hp]
  · cases hmd : md pos.symbol with
    | none => exact Or.inl (by simp [StealthScan.updatePosition, hmd])
    | some p => exact Or.inr (by simp [StealthScan.updatePosition, hmd])

/-- C3 witness: a TSLA position updated to price 105 gets
unrealized_pnl (105 − 100) × 10. -/
theorem C3_witness :
    (StealthScan.updatePosition
      (fun s => if s = "TSLA" then some 105 else none)
      ⟨"t1", "TSLA", 10, 100, 100, 0, 0, none, none⟩).unrealized_pnl =
      (105 - 100) * 10 :=
  ((C3_unrealized_pnl_recomputed
      (fun s => if s = "TSLA" then some 105 else none)
      ⟨"t1", "TSLA", 10, 100, 100, 0, 0, none, none⟩ []).1 105 (by rfl)).1

/-- C4: an OPEN position with entry 100, stop 95 (no trailing stop) and
quantity q > 0 hit by a market update at 94 is closed at the triggering
price 94 with realized_pnl = (94 − 100) × q, marked CLOSED, and exactly
one trade-close event is emitted; a further tick on the closed position
emits nothing and changes nothing, so a second close event is
impossible. -/
theorem C4_stop_loss_closes_once (pos : StealthScan.BrokerPosition)
    (q p' : ℚ) (hq : 0 < q)
    (hstatus : pos.status = StealthScan.PositionStatus.OPEN)
    (hentry : pos.entry_price = 100)
    (hstop : pos.stop_loss = some 95)
    (htrail : pos.trailing_stop = none)
    (hqty : pos.quantity = q) :
    (StealthScan.monitorTick pos 94).1.status =
      StealthScan.PositionStatus.CLOSED ∧
    (StealthScan.monitorTick pos 94).1.realized_pnl =
      some ((94 - 100) * q) ∧
    (StealthScan.monitorTick pos 94).1.current_price = 94 ∧
    (StealthScan.monitorTick pos 94).2 =
      [StealthScan.BrokerEvent.tradeClose pos.symbol 94 ((94 - 100) * q)] ∧
    StealthScan.monitorTick (StealthScan.monitorTick pos 94).1 p' =
      ((StealthScan.monitorTick pos 94).1, []) := by
  have hrun :
      StealthScan.monitorTick pos 94 =
        ({ pos with
             current_price := 94,
             unrealized_pnl := (94 - 100) * q,
             status := StealthScan.PositionStatus.CLOSED,
             realized_pnl := some ((94 - 100) * q) },
         [StealthScan.BrokerEvent.tradeClose pos.symbol 94
            ((94 - 100) * q)]) := by
    unfold StealthScan.monitorTick
    rw [hstatus]
    simp [htrail, hstop, hentry, hqty]
    norm_num
  refine ⟨?_, ?_, ?_, ?_, ?_⟩
  · rw [hrun]
  · rw [hrun]
  · rw [hrun]
  · rw [hrun]
  · rw [hrun]
    unfold StealthScan.monitorTick
    rfl

/-- C4 witness: a concrete ten-share XYZ position with entry 100 and
stop 95, closed by the 94 tick; a follow-up tick at 93 does nothing. -/
theorem C4_witness :
    (StealthScan.monitorTick
      ⟨"XYZ", 10, 100, 100, some 95, none, none, 0, none,
        StealthScan.PositionStatus.OPEN⟩ 94).1.status =
      StealthScan.PositionStatus.CLOSED ∧
    (StealthScan.monitorTick
      ⟨"XYZ", 10, 100, 100, some 95, none, none, 0, none,
        StealthScan.PositionStatus.OPEN⟩ 94).1.realized_pnl =
      some ((94 - 100) * 10) ∧
    (StealthScan.monitorTick
      ⟨"XYZ", 10, 100, 100, some 95, none, none, 0, none,
        StealthScan.PositionStatus.OPEN⟩ 94).1.current_price = 94 ∧
    (StealthScan.monitorTick
      ⟨"XYZ", 10, 100, 100, some 95, none, none, 0, none,
        StealthScan.PositionStatus.OPEN⟩ 94).2 =
      [StealthScan.BrokerEvent.tradeClose "XYZ" 94 ((94 - 100) * 10)] ∧
    StealthScan.monitorTick
      (StealthScan.monitorTick
        ⟨"XYZ", 10, 100, 100, some 95, none, none, 0, none,
          StealthScan.PositionStatus.OPEN⟩ 94).1 93 =
      ((StealthScan.monitorTick
        ⟨"XYZ", 10, 100, 100, some 95, none, none, 0, none,
          StealthScan.PositionStatus.OPEN⟩ 94).1, []) :=
  C4_stop_loss_closes_once
    ⟨"XYZ", 10, 100, 100, some 95, none, none, 0, none,
      StealthScan.PositionStatus.OPEN⟩ 10 93 (by norm_num)
    rfl rfl rfl rfl rfl

/-- C5: Reset() is idempotent — resetting twice equals resetting once
(in particular the resulting BotStatus agrees) — and it zeroes
scan_count and trade_count, clears the cooldown table, stops the
scheduled loop, and leaves the set of open positions untouched. -/
theorem C5_reset_idempotent (s : StealthScan.BotState) :
    StealthScan.reset (StealthScan.reset s) = StealthScan.reset s ∧
    (StealthScan.reset (StealthScan.reset s)).status =
      (StealthScan.reset s).status ∧
    (StealthScan.reset s).status.scan_count = 0 ∧
    (StealthScan.reset s).status.trade_count = 0 ∧
    (StealthScan.reset s).cooldowns = [] ∧
    (StealthScan.reset s).loopActive = false ∧
    (StealthScan.reset s).status.scanning = false ∧
    (StealthScan.reset s).openPositions = s.openPositions := by
  refine ⟨rfl, rfl, rfl, rfl, rfl, rfl, rfl, rfl⟩

/-- C6: every RunScan response is a record with exactly the fields
total_scanned, signals_stored, top_opportunities and errors, in that
order, whatever the inputs and however the scan went. -/
theorem C6_runscan_fields (manual : Bool) (univSyms : List String)
    (quote : String → Option ℚ) (confidence : String → ℚ)
    (gatePass : String → Bool) (st : StealthScan.CooldownState)
    (now ttl : ℕ) (delta : ℚ) :
    (StealthScan.runScan manual univSyms quote confidence gatePass st
        now ttl delta).map Prod.fst =
      ["total_scanned", "signals_stored", "top_opportunities", "errors"] := by
  rfl

/-- C7: the PerformanceCalculator maps every finite trade set to finite
numbers — win_rate is 0 with no trades and always lies in [0,1], and the
Sharpe ratio is 0 whenever fewer than 2 days of data exist or the
standard deviation (equivalently the variance) of the daily aggregated
pnl is 0 — so degenerate inputs yield 0, never errors or non-finite
values. -/
theorem C7_performance_degenerate_safe (sqrtFn : ℚ → ℚ)
    (ts : List StealthScan.ClosedTrade) :
    (ts = [] → StealthScan.winRate ts = 0) ∧
    0 ≤ StealthScan.winRate ts ∧
    StealthScan.winRate ts ≤ 1 ∧
    ((StealthScan.dailyAgg ts).length < 2 →
      StealthScan.sharpe sqrtFn ts = 0) ∧
    (StealthScan.listVariance ((StealthScan.dailyAgg ts).map Prod.snd) = 0 →
      StealthScan.sharpe sqrtFn ts = 0) := by
  refine ⟨?_, ?_, ?_, ?_, ?_⟩
  · intro h
    subst h
    rfl
  · unfold StealthScan.winRate
    split_ifs
    · exact le_refl 0
    · positivity
  · unfold StealthScan.winRate
    split_ifs with h
    · exact zero_le_one
    · rw [div_le_one (by positivity)]
      exact_mod_cast List.length_filter_le _ _
  · intro h
    unfold StealthScan.sharpe
    simp only [List.length_map]
    rw [if_pos h]
  · intro h
    unfold StealthScan.sharpe
    simp only [List.length_map]
    by_cases h2 : (StealthScan.dailyAgg ts).length < 2
    · rw [if_pos h2]
    · rw [if_neg h2, if_pos h]

/-- C7 witness: the empty trade set yields win_rate 0 and Sharpe 0. -/
theorem C7_witness :
    StealthScan.winRate [] = 0 ∧ StealthScan.sharpe id [] = 0 :=
  ⟨(C7_performance_degenerate_safe id []).1 rfl,
   (C7_performance_degenerate_safe id []).2.2.2.1 (by decide)⟩

/-- C8: the client sends the keep-alive message of type "ping" whenever
the interval fires with the socket OPEN; consecutive firings are exactly
30000 ms apart, which equals the default 30 s heartbeat period; and a
subscriber silent for more than two heartbeat intervals is absent from
the reaped subscriber set, its queue (stored alongside it) discarded
with it. -/
theorem C8_heartbeat_keepalive (rs : StealthScan.ReadyState)
    (k nowMs : ℕ) (subs : List (StealthScan.Subscriber × List String))
    (s : StealthScan.Subscriber) (q : List String) :
    (rs = StealthScan.ReadyState.OPEN →
      StealthScan.pingTick rs = some StealthScan.pingMessage) ∧
    StealthScan.pingMessage.type = "ping" ∧
    StealthScan.pingTime (k + 1) - StealthScan.pingTime k =
      StealthScan.pingPeriodMs ∧
    StealthScan.pingPeriodMs = StealthScan.heartbeatSeconds * 1000 ∧
    (s.lastSeenMs + StealthScan.deadPeerThresholdMs < nowMs →
      (s, q) ∉ StealthScan.reapSubscribers subs nowMs) := by
  refine ⟨?_, rfl, ?_, rfl, ?_⟩
  · intro h
    simp [StealthScan.pingTick, h]
  · simp only [StealthScan.pingTime, StealthScan.pingPeriodMs]
    omega
  · intro h hmem
    unfold StealthScan.reapSubscribers at hmem
    rw [List.mem_filter] at hmem
    have hle := hmem.2
    simp only [decide_eq_true_eq] at hle
    omega

/-- C8 witness: with the socket OPEN the ping is sent; a subscriber last
seen at 0 ms is gone from the reaped set at 60001 ms. -/
theorem C8_witness :
    StealthScan.pingTick StealthScan.ReadyState.OPEN =
      some StealthScan.pingMessage ∧
    ((⟨"s1", 0⟩ : StealthScan.Subscriber), ["evt"]) ∉
      StealthScan.reapSubscribers [(⟨"s1", 0⟩, ["evt"])] 60001 :=
  ⟨(C8_heartbeat_keepalive StealthScan.ReadyState.OPEN 0 60001
      [(⟨"s1", 0⟩, ["evt"])] ⟨"s1", 0⟩ ["evt"]).1 rfl,
   (C8_heartbeat_keepalive StealthScan.ReadyState.OPEN 0 60001
      [(⟨"s1", 0⟩, ["evt"])] ⟨"s1", 0⟩ ["evt"]).2.2.2.2 (by decide)⟩

/-- C9: a 401 error response makes the interceptor clear the stored
auth_token and navigate to /login, handing back a rejection carrying the
original error; any other error is rejected with state untouched; a
successful response passes through and mutates nothing. -/
theorem C9_interceptor_unauthorized (e : StealthScan.HttpFailure)
    (st : StealthScan.ClientBrowserState) (status : ℕ) :
    (e.respStatus = some 401 →
      StealthScan.onResponseFailure e st =
        (⟨none, "/login"⟩, StealthScan.InterceptOutcome.reject e)) ∧
    (e.respStatus ≠ some 401 →
      StealthScan.onResponseFailure e st =
        (st, StealthScan.InterceptOutcome.reject e)) ∧
    StealthScan.onResponseSuccess status st =
      (st, StealthScan.InterceptOutcome.resolve status) := by
  refine ⟨?_, ?_, rfl⟩
  · intro h
    simp [StealthScan.onResponseFailure, h]
  · intro h
    simp [StealthScan.onResponseFailure, h]

/-- C9 witness: a 401 clears the token and redirects; a 500 leaves the
token and location alone. -/
theorem C9_witness :
    StealthScan.onResponseFailure ⟨some 401⟩ ⟨some "tok", "/dash"⟩ =
      (⟨none, "/login"⟩, StealthScan.InterceptOutcome.reject ⟨some 401⟩) ∧
    StealthScan.onResponseFailure ⟨some 500⟩ ⟨some "tok", "/dash"⟩ =
      (⟨some "tok", "/dash"⟩,
        StealthScan.InterceptOutcome.reject ⟨some 500⟩) :=
  ⟨(C9_interceptor_unauthorized ⟨some 401⟩ ⟨some "tok", "/dash"⟩ 200).1 rfl,
   (C9_interceptor_unauthorized ⟨some 500⟩ ⟨some "tok", "/dash"⟩ 200).2.1
     (by decide)⟩

/-- C10: the market-data hooks never propagate a failure — an empty
symbol list yields an empty map with no request issued, a failed quote
fetch yields an empty map, a failed status fetch yields the
CLOSED/Unknown fallback, and neither queryFn ever throws to its
caller. -/
theorem C10_market_hooks_swallow_errors (symbols : List String)
    (fetchQ : Except String StealthScan.QuotesMap)
    (fetchS : Except String StealthScan.MarketStatus)
    (errQ errS now : String) :
    (symbols.isEmpty →
      StealthScan.marketQuotesQueryFn symbols fetchQ =
        (StealthScan.QueryOutcome.value [], false)) ∧
    (StealthScan.marketQuotesQueryFn symbols (Except.error errQ)).1 =
      StealthScan.QueryOutcome.value ([] : StealthScan.QuotesMap) ∧
    StealthScan.marketStatusQueryFn (Except.error errS) now =
      StealthScan.QueryOutcome.value ⟨"CLOSED", "Unknown", now⟩ ∧
    (StealthScan.marketQuotesQueryFn symbols fetchQ).1 ≠
      StealthScan.QueryOutcome.thrown ∧
    StealthScan.marketStatusQueryFn fetchS now ≠
      StealthScan.QueryOutcome.thrown := by
  refine ⟨?_, ?_, rfl, ?_, ?_⟩
  · intro h
    simp [StealthScan.marketQuotesQueryFn, h]
  · by_cases h : symbols.isEmpty <;>
      simp [StealthScan.marketQuotesQueryFn, h]
  · unfold StealthScan.marketQuotesQueryFn
    by_cases h : symbols.isEmpty
    · simp [h]
    · cases fetchQ <;> simp [h]
  · cases fetchS <;> simp [StealthScan.marketStatusQueryFn]

/-- C10 witness: no request for the empty symbol list even when the
fetch would fail; the failed status fetch yields the fallback. -/
theorem C10_witness :
    StealthScan.marketQuotesQueryFn [] (Except.error "down") =
      (StealthScan.QueryOutcome.value [], false) ∧
    StealthScan.marketStatusQueryFn (Except.error "down") "2026-10-12" =
      StealthScan.QueryOutcome.value ⟨"CLOSED", "Unknown", "2026-10-12"⟩ :=
  ⟨(C10_market_hooks_swallow_errors [] (Except.error "down")
      (Except.error "down") "down" "down" "2026-10-12").1 rfl,
   (C10_market_hooks_swallow_errors [] (Except.error "down")
      (Except.error "down") "down" "down" "2026-10-12").2.2.1⟩
